import Mathlib

/-!
Verification development for the "Ucitelj Vasa" resilience layer.

Shallow embedding of the parts of the repository that the verified
properties concern:

* `src/utils/circuit_breaker.py` - `CircuitState`, `CircuitStats`,
  `CircuitBreaker` (`call`, `_on_success`, `_on_failure`,
  `_should_attempt_reset`, `reset`);
* `src/utils/fallback_manager.py` - `FallbackLevel`, `FallbackOption`,
  `FallbackChain` (`add_option`, `execute`);
* `src/utils/retry_handler.py` - `RetryConfig`, `calculate_delay`,
  `should_retry`, `retry_with_config`;
* `src/web_api/models/router.py` - `SmartProviderRouter.route_request`
  and `get_available_providers`.

Modelling conventions: Python `datetime` instants and float durations are
rational numbers (`ℚ`); every operation that reads the wall clock takes the
current time `now : ℚ` explicitly.  `random.uniform(-x, x)` is modelled by an
explicit oracle argument.  Exceptions raised by wrapped user callables are
modelled as `Except String` outcomes supplied as inputs.  Write-only logging
(`print`, the fallback chain `execution_history`, the router
`routing_history`) is omitted: no modelled code path reads it.  The
`state_changes` log of the circuit breaker is kept, because reachable
transitions are part of the verified properties.
-/

namespace Vasa

/-! ### Circuit breaker (`src/utils/circuit_breaker.py`) -/

/-- `CircuitState` enum: CLOSED ("closed"), OPEN ("open"),
HALF_OPEN ("half_open"). -/
inductive CircuitState where
  | Closed
  | Open
  | HalfOpen
deriving DecidableEq, Repr

/-- The reason strings passed to `_record_state_change`, abstracted to a tag
carrying the interpolated value.  In order of appearance in the source:
`"Pokusaj oporavka nakon {recovery_timeout}s"`,
`"Servis oporavljen nakon {success_threshold} uspesnih poziva"`,
`"Test oporavka neuspesan"`,
`"Prekoracen prag od {failure_threshold} uzastopnih gresaka"`,
`"Rucni reset"`. -/
inductive ChangeReason where
  | recoveryAttempt (recovery_timeout : ℚ)
  | recovered (success_threshold : ℕ)
  | testFailed
  | thresholdExceeded (failure_threshold : ℕ)
  | manualReset
deriving DecidableEq, Repr

/-- One entry of `CircuitStats.state_changes` (a dict with keys
`time`, `from`, `to`, `reason` in the source). -/
structure StateChange where
  time : ℚ
  fromState : CircuitState
  toState : CircuitState
  reason : ChangeReason
deriving DecidableEq, Repr

/-- `CircuitStats` dataclass. -/
structure CircuitStats where
  success_count : ℕ := 0
  failure_count : ℕ := 0
  consecutive_failures : ℕ := 0
  last_failure_time : Option ℚ := none
  state_changes : List StateChange := []
deriving DecidableEq, Repr

/-- `CircuitStats.record_success`. -/
def CircuitStats.record_success (s : CircuitStats) : CircuitStats :=
  { s with
    success_count := s.success_count + 1
    consecutive_failures := 0 }

/-- `CircuitStats.record_failure`; `datetime.now()` is the explicit `now`. -/
def CircuitStats.record_failure (s : CircuitStats) (now : ℚ) : CircuitStats :=
  { s with
    failure_count := s.failure_count + 1
    consecutive_failures := s.consecutive_failures + 1
    last_failure_time := some now }

/-- `CircuitStats.get_failure_rate`. -/
def CircuitStats.get_failure_rate (s : CircuitStats) : ℚ :=
  let total := s.success_count + s.failure_count
  if total = 0 then 0 else ((s.failure_count : ℚ) / (total : ℚ)) * 100

/-- `CircuitBreaker` object state.  `expected_exception` is not modelled:
every modelled failure outcome is an instance of the expected exception
type (the default is `Exception`, which every exception matches). -/
structure CircuitBreaker where
  name : String
  failure_threshold : ℕ
  recovery_timeout : ℚ
  success_threshold : ℕ
  state : CircuitState
  stats : CircuitStats
  half_open_success_count : ℕ
  state_changed_at : ℚ
deriving DecidableEq, Repr

/-- `CircuitBreaker.__init__` (defaults `failure_threshold=5`,
`recovery_timeout=60.0`, `success_threshold=2`); `datetime.now()` at
construction time is the explicit `now`. -/
def CircuitBreaker.init (name : String) (failure_threshold : ℕ)
    (recovery_timeout : ℚ) (success_threshold : ℕ) (now : ℚ) : CircuitBreaker :=
  { name := name
    failure_threshold := failure_threshold
    recovery_timeout := recovery_timeout
    success_threshold := success_threshold
    state := .Closed
    stats := {}
    half_open_success_count := 0
    state_changed_at := now }

/-- `CircuitBreaker._should_attempt_reset`:
`state == OPEN and now > state_changed_at + recovery_timeout`. -/
def CircuitBreaker.should_attempt_reset (cb : CircuitBreaker) (now : ℚ) : Bool :=
  cb.state == .Open && decide (cb.state_changed_at + cb.recovery_timeout < now)

/-- `CircuitBreaker._record_state_change`: sets `state` and
`state_changed_at`, appends the transition to `stats.state_changes`.
The console output is omitted. -/
def CircuitBreaker.record_state_change (cb : CircuitBreaker)
    (new_state : CircuitState) (reason : ChangeReason) (now : ℚ) : CircuitBreaker :=
  { cb with
    state := new_state
    state_changed_at := now
    stats := { cb.stats with
      state_changes := cb.stats.state_changes ++
        [{ time := now, fromState := cb.state, toState := new_state, reason := reason }] } }

/-- `CircuitBreaker._on_success`. -/
def CircuitBreaker.on_success (cb : CircuitBreaker) (now : ℚ) : CircuitBreaker :=
  let cb1 := { cb with stats := cb.stats.record_success }
  if cb1.state = .HalfOpen then
    let cb2 := { cb1 with half_open_success_count := cb1.half_open_success_count + 1 }
    if cb2.half_open_success_count ≥ cb2.success_threshold then
      cb2.record_state_change .Closed (.recovered cb2.success_threshold) now
    else cb2
  else cb1

/-- `CircuitBreaker._on_failure` (the threshold test reads
`consecutive_failures` after `record_failure` has run, as in the source). -/
def CircuitBreaker.on_failure (cb : CircuitBreaker) (now : ℚ) : CircuitBreaker :=
  let cb1 := { cb with stats := cb.stats.record_failure now }
  if cb1.state = .HalfOpen then
    cb1.record_state_change .Open .testFailed now
  else if cb1.state = .Closed ∧ cb1.stats.consecutive_failures ≥ cb1.failure_threshold then
    cb1.record_state_change .Open (.thresholdExceeded cb1.failure_threshold) now
  else cb1

/-- Result of one `CircuitBreaker.call`: rejection with `CircuitOpenError`
(message elided), the value returned by `func`, or the exception re-raised
from `func`. -/
inductive CallResult (α : Type) where
  | rejected
  | ok (a : α)
  | raised (e : String)
deriving DecidableEq, Repr

/-- The opening block of `CircuitBreaker.call` (lines 128-134): if
`_should_attempt_reset()` then transition to HALF_OPEN and zero
`half_open_success_count`. -/
def CircuitBreaker.afterResetCheck (cb : CircuitBreaker) (now : ℚ) : CircuitBreaker :=
  if cb.should_attempt_reset now then
    { cb.record_state_change .HalfOpen (.recoveryAttempt cb.recovery_timeout) now with
      half_open_success_count := 0 }
  else cb

/-- `CircuitBreaker.call`.  The behaviour of `func(*args, **kwargs)` is the
input `outcome`: `Except.ok a` if the call returns `a`, `Except.error e` if
it raises an (expected) exception with message `e`. -/
def CircuitBreaker.call {α : Type} (cb : CircuitBreaker) (now : ℚ)
    (outcome : Except String α) : CircuitBreaker × CallResult α :=
  let cb1 := cb.afterResetCheck now
  if cb1.state = .Open then
    ({ cb1 with stats := cb1.stats.record_failure now }, .rejected)
  else
    match outcome with
    | .ok a => (cb1.on_success now, .ok a)
    | .error e => (cb1.on_failure now, .raised e)

/-- `CircuitBreaker._time_until_retry`. -/
def CircuitBreaker.time_until_retry (cb : CircuitBreaker) (now : ℚ) : ℚ :=
  if cb.state ≠ .Open then 0
  else max 0 (cb.recovery_timeout - (now - cb.state_changed_at))

/-- `CircuitBreaker.reset`: records a manual transition to CLOSED, then
replaces `stats` by a fresh `CircuitStats()` (erasing the log just
appended to) and zeroes `half_open_success_count`. -/
def CircuitBreaker.reset (cb : CircuitBreaker) (now : ℚ) : CircuitBreaker :=
  let cb1 := cb.record_state_change .Closed .manualReset now
  { cb1 with stats := {}, half_open_success_count := 0 }

/-- `n` consecutive calls through the breaker whose wrapped function raises
(message `e`), all at time `now`. -/
def CircuitBreaker.failCalls (cb : CircuitBreaker) (now : ℚ) (e : String) : ℕ → CircuitBreaker
  | 0 => cb
  | n + 1 => ((cb.failCalls now e n).call (α := Unit) now (Except.error e)).1

/-! ### Fallback chain (`src/utils/fallback_manager.py`) -/

/-- `FallbackLevel` enum, in declaration order
PRIMARY, SECONDARY, TERTIARY, EMERGENCY. -/
inductive FallbackLevel where
  | PRIMARY
  | SECONDARY
  | TERTIARY
  | EMERGENCY
deriving DecidableEq, Repr

/-- `list(FallbackLevel).index(level)`: position in declaration order. -/
def FallbackLevel.index : FallbackLevel → ℕ
  | .PRIMARY => 0
  | .SECONDARY => 1
  | .TERTIARY => 2
  | .EMERGENCY => 3

/-- `FallbackOption` dataclass.  The `handler` field holds the outcome of
calling the option handler on the (fixed) arguments of one execution:
`Except.ok v` if it returns `v`, `Except.error e` if it raises `e`. -/
structure FallbackOption (α : Type) where
  name : String
  level : FallbackLevel
  handler : Except String α
  description : String
  degradation_message : Option String := none
deriving Repr

/-- `FallbackChain` object state (the write-only `execution_history` is
omitted). -/
structure FallbackChain (α : Type) where
  name : String
  options : List (FallbackOption α)
deriving Repr

/-- `FallbackChain.add_option`: append, then
`self.options.sort(key=lambda x: list(FallbackLevel).index(x.level))`.
Python list sort is a stable sort by the key; it is modelled by
`List.insertionSort`, which is stable for this total preorder. -/
def FallbackChain.add_option {α : Type} (c : FallbackChain α)
    (opt : FallbackOption α) : FallbackChain α :=
  { c with
    options := List.insertionSort
      (fun a b => a.level.index ≤ b.level.index) (c.options ++ [opt]) }

/-- The loop of `FallbackChain.execute`: try each option in list order,
return the first handler value; on an exception the pair
`(option.name, str(e))` is appended to `errors`; when all options fail the
aggregate exception is raised, carrying the accumulated `errors` (the
formatted message is elided in favour of the list itself). -/
def executeFrom {α : Type} :
    List (FallbackOption α) → List (String × String) →
      Except (List (String × String)) α
  | [], errors => .error errors
  | opt :: rest, errors =>
    match opt.handler with
    | .ok v => .ok v
    | .error e => executeFrom rest (errors ++ [(opt.name, e)])

/-- `FallbackChain.execute`. -/
def FallbackChain.execute {α : Type} (c : FallbackChain α) :
    Except (List (String × String)) α :=
  executeFrom c.options []

/-- A chain built by constructing `FallbackChain(name)` and calling
`add_option` once per element of `adds`, in order. -/
def FallbackChain.ofOptions {α : Type} (name : String)
    (adds : List (FallbackOption α)) : FallbackChain α :=
  adds.foldl FallbackChain.add_option { name := name, options := [] }

/-! ### Retry handler (`src/utils/retry_handler.py`) -/

/-- `RetryConfig`. -/
structure RetryConfig where
  max_attempts : ℕ := 3
  initial_delay : ℚ := 1
  max_delay : ℚ := 60
  exponential_base : ℚ := 2
  jitter : Bool := true
deriving DecidableEq, Repr

/-- `calculate_delay(attempt, config)`.  The call
`random.uniform(-jitter_range, jitter_range)` with
`jitter_range = delay * 0.25` is modelled by the oracle `j : ℚ`, the drawn
offset expressed as a fraction of `delay`: the offset is `j * delay`, and a
genuine uniform draw always satisfies `|j| ≤ 1/4`. -/
def calculate_delay (attempt : ℕ) (config : RetryConfig) (j : ℚ) : ℚ :=
  let delay := min (config.initial_delay * config.exponential_base ^ attempt)
    config.max_delay
  let delay2 := if config.jitter then delay + j * delay else delay
  max (1/10) delay2

/-- The `retry_errors` list: substrings whose presence makes an error
retryable. -/
def retry_errors : List String :=
  ["rate_limit", "rate limit",
   "timeout", "timed out",
   "connection", "network",
   "temporary", "unavailable",
   "429", "503", "502", "500"]

/-- The `no_retry_errors` list: substrings whose presence makes an error
terminal. -/
def no_retry_errors : List String :=
  ["invalid api key", "unauthorized",
   "insufficient_quota", "payment",
   "invalid request", "bad request"]

/-- `needle.isPrefixOf hay` on character lists (the starting comparison of
one position of a Python `in` substring scan). -/
def leadsWith : List Char → List Char → Bool
  | [], _ => true
  | _ :: _, [] => false
  | a :: as, b :: bs => a == b && leadsWith as bs

/-- `needle in hay` on character lists (Python substring containment). -/
def hasSub (needle : List Char) : List Char → Bool
  | [] => needle.isEmpty
  | c :: rest => leadsWith needle (c :: rest) || hasSub needle rest

/-- `s.lower()` as a character list (`String.toLower` maps `Char.toLower`
over the characters of the string). -/
def lowerData (s : String) : List Char := s.data.map Char.toLower

/-- `should_retry(error)`: lowercase `str(error)`, return `True` if any
`retry_errors` entry occurs in it, else `False` if any `no_retry_errors`
entry occurs in it, else `False`. -/
def should_retry (error_msg : String) : Bool :=
  let e := lowerData error_msg
  if retry_errors.any (fun w => hasSub w.data e) then true
  else if no_retry_errors.any (fun w => hasSub w.data e) then false
  else false

/-- Result of a call to a function wrapped by `retry_with_config`:
the wrapped value, an immediately re-raised non-retryable exception, or
`RetryError` carrying `last_error` (`none` only when `max_attempts == 0`). -/
inductive RetryOutcome (α : Type) where
  | ok (a : α)
  | raised (e : String)
  | retryError (last_error : Option String)
deriving DecidableEq, Repr

/-- The `for attempt in range(config.max_attempts)` loop of the wrapper in
`retry_with_config`, by remaining iterations: `remaining + attempt`
always equals `max_attempts`.  `f attempt` is the outcome of the
`attempt`-th invocation of the wrapped function.  The sleep between
attempts (of length `calculate_delay attempt config`) does not affect the
returned value and is elided. -/
def retryGo {α : Type} (f : ℕ → Except String α) :
    ℕ → ℕ → Option String → RetryOutcome α
  | 0, _, last_error => .retryError last_error
  | remaining + 1, attempt, _ =>
    match f attempt with
    | .ok a => .ok a
    | .error e =>
      if should_retry e = false then .raised e
      else if remaining = 0 then .retryError (some e)
      else retryGo f remaining (attempt + 1) (some e)

/-- The wrapper produced by `retry_with_config(config)` applied to a
function whose successive invocations have outcomes `f 0, f 1, ...`. -/
def retry_with_config {α : Type} (config : RetryConfig)
    (f : ℕ → Except String α) : RetryOutcome α :=
  retryGo f config.max_attempts 0 none

/-! ### Provider router (`src/web_api/models/router.py`) -/

/-- `RequestType` enum (`src/web_api/models/request_types.py`). -/
inductive RequestType where
  | CHAT
  | CODE_GENERATION
  | CODE_DEBUG
  | CONCEPT_EXPLAIN
  | CODE_REVIEW
  | TRANSLATION
  | OPTIMIZATION
deriving DecidableEq, Repr

/-- The `.value` string of each `RequestType` member. -/
def RequestType.value : RequestType → String
  | .CHAT => "chat"
  | .CODE_GENERATION => "code"
  | .CODE_DEBUG => "debug"
  | .CONCEPT_EXPLAIN => "explain"
  | .CODE_REVIEW => "review"
  | .TRANSLATION => "translate"
  | .OPTIMIZATION => "optimize"

/-- `StructuredRequest`, restricted to the fields `route_request` reads
(`request_type`; the content, context and preferences never influence the
routing code modelled here). -/
structure StructuredRequest where
  content : String
  request_type : RequestType
deriving DecidableEq, Repr

/-- The routing-metadata dict returned by `route_request`; keys absent from
a branch are `none`. -/
structure RoutingMetadata where
  strategy : String
  reason : Option String := none
  available_providers : Option (List String) := none
  request_type : Option String := none
  selected_reason : Option String := none
  timestamp : ℚ
deriving DecidableEq, Repr

/-- `SmartProviderRouter.get_available_providers`.  `openai_key` and
`gemini_key` are the truthiness of `Config.OPENAI_API_KEY` and
`Config.GEMINI_API_KEY`; `cb_openai` / `cb_gemini` are the states of the
circuit breakers registered as `"ai_openai"` / `"ai_gemini"` in
`circuit_registry` (`none` when not registered).  A provider with a key is
available unless its registered breaker has `state.value == "open"`. -/
def get_available_providers (openai_key gemini_key : Bool)
    (cb_openai cb_gemini : Option CircuitState) : List String :=
  (if openai_key then
    match cb_openai with
    | some s => if s ≠ .Open then ["openai"] else []
    | none => ["openai"]
   else []) ++
  (if gemini_key then
    match cb_gemini with
    | some s => if s ≠ .Open then ["gemini"] else []
    | none => ["gemini"]
   else [])

/-- `SmartProviderRouter.route_request`.  `select` is
`self.strategy.select_provider`, `strategy_name` is
`type(self.strategy).__name__`, `sel_reason` is the string produced by
`_get_selection_reason`; `_record_routing` only appends to the write-only
history and is elided. -/
def route_request (select : StructuredRequest → List String → String)
    (strategy_name : String) (sel_reason : String)
    (request : StructuredRequest) (override_provider : Option String)
    (openai_key gemini_key : Bool) (cb_openai cb_gemini : Option CircuitState)
    (now : ℚ) : String × RoutingMetadata :=
  match override_provider with
  | some p =>
    (p, { strategy := "override"
          reason := some "Explicitly requested"
          timestamp := now })
  | none =>
    let available := get_available_providers openai_key gemini_key cb_openai cb_gemini
    if available = [] then
      ("simulation", { strategy := "fallback"
                       reason := some "No available providers"
                       timestamp := now })
    else
      let selected := select request available
      (selected, { strategy := strategy_name
                   available_providers := some available
                   request_type := some request.request_type.value
                   selected_reason := some sel_reason
                   timestamp := now })

/-! ### Helper lemmas: circuit breaker -/

theorem afterResetCheck_of_no_reset (cb : CircuitBreaker) (now : ℚ)
    (h : cb.should_attempt_reset now = false) : cb.afterResetCheck now = cb := by
  simp [CircuitBreaker.afterResetCheck, h]

theorem afterResetCheck_state_of_reset (cb : CircuitBreaker) (now : ℚ)
    (h : cb.should_attempt_reset now = true) :
    (cb.afterResetCheck now).state = .HalfOpen := by
  simp [CircuitBreaker.afterResetCheck, h, CircuitBreaker.record_state_change]

theorem call_rejected_eq {α : Type} (cb : CircuitBreaker) (now : ℚ)
    (hs : cb.state = .Open) (hr : cb.should_attempt_reset now = false)
    (outcome : Except String α) :
    cb.call now outcome =
      ({ cb with stats := cb.stats.record_failure now }, CallResult.rejected) := by
  simp [CircuitBreaker.call, afterResetCheck_of_no_reset cb now hr, hs]

theorem call_invoked {α : Type} (cb : CircuitBreaker) (now : ℚ)
    (h : (cb.afterResetCheck now).state ≠ .Open) (a : α) (e : String) :
    cb.call now (Except.ok a) =
      ((cb.afterResetCheck now).on_success now, CallResult.ok a)
    ∧ cb.call (α := α) now (Except.error e) =
      ((cb.afterResetCheck now).on_failure now, CallResult.raised e) := by
  constructor <;> simp [CircuitBreaker.call, h]

theorem afterResetCheck_state_ne_open (cb : CircuitBreaker) (now : ℚ)
    (h : ¬ (cb.state = .Open ∧ cb.should_attempt_reset now = false)) :
    (cb.afterResetCheck now).state ≠ .Open := by
  by_cases hr : cb.should_attempt_reset now = true
  · rw [afterResetCheck_state_of_reset cb now hr]; simp
  · have hr2 : cb.should_attempt_reset now = false := by
      simpa using hr
    rw [afterResetCheck_of_no_reset cb now hr2]
    intro hs
    exact h ⟨hs, hr2⟩

theorem on_success_state (cb : CircuitBreaker) (now : ℚ) :
    (cb.on_success now).state =
      if cb.state = .HalfOpen ∧ cb.half_open_success_count + 1 ≥ cb.success_threshold
      then .Closed else cb.state := by
  by_cases h1 : cb.state = .HalfOpen <;>
    by_cases h2 : cb.half_open_success_count + 1 ≥ cb.success_threshold <;>
      simp [CircuitBreaker.on_success, CircuitBreaker.record_state_change,
        CircuitStats.record_success, h1, h2]

theorem on_failure_state (cb : CircuitBreaker) (now : ℚ) :
    (cb.on_failure now).state =
      if cb.state = .HalfOpen then .Open
      else if cb.state = .Closed ∧
          cb.stats.consecutive_failures + 1 ≥ cb.failure_threshold then .Open
      else cb.state := by
  by_cases h1 : cb.state = .HalfOpen <;>
    by_cases h2 : cb.state = .Closed <;>
      by_cases h3 : cb.stats.consecutive_failures + 1 ≥ cb.failure_threshold <;>
        simp [CircuitBreaker.on_failure, CircuitBreaker.record_state_change,
          CircuitStats.record_failure, h1, h2, h3]

theorem afterResetCheck_fields (cb : CircuitBreaker) (now : ℚ)
    (hr : cb.should_attempt_reset now = true) :
    (cb.afterResetCheck now).half_open_success_count = 0
    ∧ (cb.afterResetCheck now).success_threshold = cb.success_threshold
    ∧ (cb.afterResetCheck now).failure_threshold = cb.failure_threshold
    ∧ (cb.afterResetCheck now).stats.consecutive_failures
        = cb.stats.consecutive_failures := by
  simp [CircuitBreaker.afterResetCheck, hr, CircuitBreaker.record_state_change]

/-- Claim C1 (amended): every state transition the code can perform is one of
CLOSED→OPEN when the consecutive-failure counter reaches `failure_threshold`,
OPEN→HALF_OPEN once more than `recovery_timeout` has elapsed since the last
state change (`should_attempt_reset`), HALF_OPEN→CLOSED when the half-open
success counter reaches `success_threshold`, HALF_OPEN→OPEN on any failure —
or a transition of `reset()`, which forces the state to CLOSED from any state
and replaces the statistics with a fresh `CircuitStats`.  The theorem
characterises the post-state of each operation (`reset`, `call` on a
succeeding function, `call` on a raising function) exactly, so no other
transition is possible. -/
theorem circuit_state_transition_cases {α : Type} (cb : CircuitBreaker) (now : ℚ)
    (e : String) (a : α) :
    ((cb.reset now).state = CircuitState.Closed ∧ (cb.reset now).stats = {})
  ∧ ((cb.call now (Except.ok a)).1.state =
      if cb.should_attempt_reset now then
        (if 1 ≥ cb.success_threshold then CircuitState.Closed
         else CircuitState.HalfOpen)
      else if cb.state = CircuitState.Open then CircuitState.Open
      else if cb.state = CircuitState.HalfOpen ∧
          cb.half_open_success_count + 1 ≥ cb.success_threshold then
        CircuitState.Closed
      else cb.state)
  ∧ ((cb.call (α := α) now (Except.error e)).1.state =
      if cb.should_attempt_reset now then CircuitState.Open
      else if cb.state = CircuitState.Open then CircuitState.Open
      else if cb.state = CircuitState.HalfOpen then CircuitState.Open
      else if cb.state = CircuitState.Closed ∧
          cb.stats.consecutive_failures + 1 ≥ cb.failure_threshold then
        CircuitState.Open
      else cb.state) := by
  refine ⟨⟨rfl, rfl⟩, ?_, ?_⟩
  · by_cases hr : cb.should_attempt_reset now = true
    · have h1 := afterResetCheck_state_of_reset cb now hr
      have h2 := (call_invoked cb now (by rw [h1]; simp) a e).1
      obtain ⟨f1, f2, -, -⟩ := afterResetCheck_fields cb now hr
      rw [h2, on_success_state, h1, f1, f2]
      simp [hr]
    · have hr2 : cb.should_attempt_reset now = false := by simpa using hr
      by_cases hs : cb.state = CircuitState.Open
      · rw [call_rejected_eq cb now hs hr2]
        simp [hr2, hs]
      · have h2 := (call_invoked cb now
          (afterResetCheck_state_ne_open cb now (fun h => hs h.1)) a e).1
        rw [h2, on_success_state, afterResetCheck_of_no_reset cb now hr2]
        simp [hr2, hs]
  · by_cases hr : cb.should_attempt_reset now = true
    · have h1 := afterResetCheck_state_of_reset cb now hr
      have h2 := (call_invoked cb now (by rw [h1]; simp) a e).2
      rw [h2, on_failure_state, h1]
      simp [hr]
    · have hr2 : cb.should_attempt_reset now = false := by simpa using hr
      by_cases hs : cb.state = CircuitState.Open
      · rw [call_rejected_eq cb now hs hr2]
        simp [hr2, hs]
      · have h2 := (call_invoked cb now
          (afterResetCheck_state_ne_open cb now (fun h => hs h.1)) a e).2
        rw [h2, on_failure_state, afterResetCheck_of_no_reset cb now hr2]
        simp [hr2, hs]

/-- Claim C1 counterexample: the claim as stated (the four listed
transitions are the only ones) is false, because `reset()` is an operation
on the breaker that moves it from OPEN directly to CLOSED.  Concretely: a
fresh breaker with `failure_threshold = 1` and `recovery_timeout = 60`,
after one failing call at time 0, is OPEN; at time 0 the recovery timeout
has not elapsed (`should_attempt_reset` is false), so the only claimed
transition out of OPEN (OPEN→HALF_OPEN) is not enabled — yet `reset()` at
time 0 puts it in CLOSED. -/
theorem circuit_reset_transition_counterexample :
    ((CircuitBreaker.init "svc" 1 60 2 0).failCalls 0 "boom" 1).state
        = CircuitState.Open
  ∧ ((CircuitBreaker.init "svc" 1 60 2 0).failCalls 0 "boom" 1).should_attempt_reset 0
        = false
  ∧ (((CircuitBreaker.init "svc" 1 60 2 0).failCalls 0 "boom" 1).reset 0).state
        = CircuitState.Closed := by
  refine ⟨by decide, ?_, by decide⟩
  have h1 : ((CircuitBreaker.init "svc" 1 60 2 0).failCalls 0 "boom" 1).state_changed_at
      = 0 := rfl
  have h2 : ((CircuitBreaker.init "svc" 1 60 2 0).failCalls 0 "boom" 1).recovery_timeout
      = 60 := rfl
  rw [CircuitBreaker.should_attempt_reset, h1, h2]
  norm_num

/-- Claim C2: if the breaker is OPEN and the recovery timeout has not yet
elapsed since the last state change (`should_attempt_reset` is false), then
`call` rejects with `CircuitOpenError` — the same result and breaker update
for every behaviour of `func`, i.e. `func` is not invoked (only
`stats.record_failure` runs).  Otherwise `call` invokes `func`, returns its
value or re-raises its exception, and records the outcome through
`_on_success` / `_on_failure` (after the OPEN→HALF_OPEN reset attempt when
it applies), which apply the state machine. -/
theorem circuit_call_contract {α : Type} (cb : CircuitBreaker) (now : ℚ)
    (a : α) (e : String) :
    (cb.state = CircuitState.Open → cb.should_attempt_reset now = false →
      ∀ outcome : Except String α,
        cb.call now outcome =
          ({ cb with stats := cb.stats.record_failure now }, CallResult.rejected))
  ∧ (¬ (cb.state = CircuitState.Open ∧ cb.should_attempt_reset now = false) →
      cb.call now (Except.ok a) =
        ((cb.afterResetCheck now).on_success now, CallResult.ok a)
      ∧ cb.call (α := α) now (Except.error e) =
        ((cb.afterResetCheck now).on_failure now, CallResult.raised e)) := by
  constructor
  · intro hs hr outcome
    exact call_rejected_eq cb now hs hr outcome
  · intro h
    exact call_invoked cb now (afterResetCheck_state_ne_open cb now h) a e

/-- Witness for C2: a breaker that went OPEN at time 0 with
`recovery_timeout = 60` rejects a call at time 1 without consulting the
wrapped function, and a CLOSED breaker lets the call through. -/
theorem circuit_call_contract_witness :
    ((CircuitBreaker.init "svc" 1 60 2 0).failCalls 0 "boom" 1).call
        (α := String) 1 (Except.ok "v") =
      ({ (CircuitBreaker.init "svc" 1 60 2 0).failCalls 0 "boom" 1 with
          stats := ((CircuitBreaker.init "svc" 1 60 2 0).failCalls 0 "boom" 1).stats.record_failure 1 },
        CallResult.rejected)
  ∧ (CircuitBreaker.init "svc" 1 60 2 0).call (α := String) 1 (Except.ok "v") =
      (((CircuitBreaker.init "svc" 1 60 2 0).afterResetCheck 1).on_success 1,
        CallResult.ok "v") := by
  constructor
  · refine (circuit_call_contract ((CircuitBreaker.init "svc" 1 60 2 0).failCalls 0 "boom" 1)
      1 "v" "e").1 (by decide) ?_ (Except.ok "v")
    have h1 : ((CircuitBreaker.init "svc" 1 60 2 0).failCalls 0 "boom" 1).state_changed_at
        = 0 := rfl
    have h2 : ((CircuitBreaker.init "svc" 1 60 2 0).failCalls 0 "boom" 1).recovery_timeout
        = 60 := rfl
    rw [CircuitBreaker.should_attempt_reset, h1, h2]
    norm_num
  · exact ((circuit_call_contract (CircuitBreaker.init "svc" 1 60 2 0)
      1 "v" "e").2 (by intro h; exact absurd h.1 (by decide))).1

theorem on_failure_fields (cb : CircuitBreaker) (now : ℚ) :
    (cb.on_failure now).stats.consecutive_failures
        = cb.stats.consecutive_failures + 1
    ∧ (cb.on_failure now).failure_threshold = cb.failure_threshold := by
  constructor <;>
    · simp only [CircuitBreaker.on_failure]
      split_ifs <;>
        simp [CircuitBreaker.record_state_change, CircuitStats.record_failure]

theorem failCalls_closed_invariant (cb : CircuitBreaker) (now : ℚ) (e : String)
    (hs : cb.state = .Closed) (hc : cb.stats.consecutive_failures = 0) :
    ∀ n, n < cb.failure_threshold →
      (cb.failCalls now e n).state = .Closed
      ∧ (cb.failCalls now e n).stats.consecutive_failures = n
      ∧ (cb.failCalls now e n).failure_threshold = cb.failure_threshold := by
  intro n
  induction n with
  | zero => intro _; exact ⟨hs, hc, rfl⟩
  | succ k ih =>
    intro hlt
    obtain ⟨ih1, ih2, ih3⟩ := ih (Nat.lt_of_succ_lt hlt)
    set prev := cb.failCalls now e k with hprev
    have hr : prev.should_attempt_reset now = false := by
      simp [CircuitBreaker.should_attempt_reset, ih1]
    have hno : (prev.afterResetCheck now).state ≠ .Open := by
      rw [afterResetCheck_of_no_reset prev now hr, ih1]; simp
    have hcall := (call_invoked prev now hno () e).2
    have hstep : cb.failCalls now e (k + 1) = prev.on_failure now := by
      show (prev.call now (Except.error e)).1 = _
      rw [hcall, afterResetCheck_of_no_reset prev now hr]
    rw [hstep]
    have hnot : ¬ (prev.stats.consecutive_failures + 1 ≥ prev.failure_threshold) := by
      rw [ih2, ih3]
      exact Nat.not_le_of_lt hlt
    refine ⟨?_, ?_, ?_⟩
    · rw [on_failure_state, ih1]
      simp [hnot]
    · rw [(on_failure_fields prev now).1, ih2]
    · rw [(on_failure_fields prev now).2, ih3]

/-- Claim C3: starting from a CLOSED breaker with a zeroed
consecutive-failure counter and `failure_threshold ≥ 1`, after `n ≤
failure_threshold` consecutive failing calls the state is OPEN exactly when
`n = failure_threshold`: it is still CLOSED after any strictly smaller
number of consecutive failures and OPEN at the threshold. -/
theorem circuit_opens_at_threshold (cb : CircuitBreaker) (now : ℚ) (e : String)
    (hs : cb.state = CircuitState.Closed)
    (hc : cb.stats.consecutive_failures = 0)
    (hf : 1 ≤ cb.failure_threshold) :
    ∀ n, n ≤ cb.failure_threshold →
      (cb.failCalls now e n).state =
        (if n < cb.failure_threshold then CircuitState.Closed
         else CircuitState.Open) := by
  intro n hn
  rcases Nat.lt_or_ge n cb.failure_threshold with hlt | hge
  · rw [if_pos hlt]
    exact (failCalls_closed_invariant cb now e hs hc n hlt).1
  · have heq : n = cb.failure_threshold := Nat.le_antisymm hn hge
    rw [if_neg (by omega)]
    obtain ⟨k, hk⟩ : ∃ k, n = k + 1 := ⟨n - 1, by omega⟩
    have hklt : k < cb.failure_threshold := by omega
    obtain ⟨ih1, ih2, ih3⟩ := failCalls_closed_invariant cb now e hs hc k hklt
    set prev := cb.failCalls now e k with hprev
    have hr : prev.should_attempt_reset now = false := by
      simp [CircuitBreaker.should_attempt_reset, ih1]
    have hno : (prev.afterResetCheck now).state ≠ .Open := by
      rw [afterResetCheck_of_no_reset prev now hr, ih1]; simp
    have hcall := (call_invoked prev now hno () e).2
    have hstep : cb.failCalls now e (k + 1) = prev.on_failure now := by
      show (prev.call now (Except.error e)).1 = _
      rw [hcall, afterResetCheck_of_no_reset prev now hr]
    have hth : prev.stats.consecutive_failures + 1 ≥ prev.failure_threshold := by
      rw [ih2, ih3]; omega
    rw [hk, hstep, on_failure_state, ih1]
    simp [hth]

/-- Witness for C3: with `failure_threshold = 2`, after one failing call the
breaker is still CLOSED, and after two it is OPEN. -/
theorem circuit_opens_at_threshold_witness :
    ((CircuitBreaker.init "svc" 2 60 2 0).failCalls 0 "boom" 1).state
        = CircuitState.Closed
  ∧ ((CircuitBreaker.init "svc" 2 60 2 0).failCalls 0 "boom" 2).state
        = CircuitState.Open := by
  have h1 := circuit_opens_at_threshold (CircuitBreaker.init "svc" 2 60 2 0)
    0 "boom" rfl rfl (by decide) 1 (by decide)
  have h2 := circuit_opens_at_threshold (CircuitBreaker.init "svc" 2 60 2 0)
    0 "boom" rfl rfl (by decide) 2 (by decide)
  constructor
  · rw [h1]; decide
  · rw [h2]; decide

/-- Claim C9: a call rejected because the circuit is OPEN still mutates the
statistics exactly as a failure would: `failure_count` and
`consecutive_failures` are incremented and `last_failure_time` is set to the
rejection time, while `success_count` is untouched — so `get_failure_rate`
counts rejected calls as failures even though the wrapped operation was
never invoked. -/
theorem circuit_rejected_call_mutates_stats {α : Type} (cb : CircuitBreaker)
    (now : ℚ) (outcome : Except String α)
    (hs : cb.state = CircuitState.Open)
    (hr : cb.should_attempt_reset now = false) :
    (cb.call now outcome).2 = CallResult.rejected
    ∧ (cb.call now outcome).1.stats.failure_count = cb.stats.failure_count + 1
    ∧ (cb.call now outcome).1.stats.consecutive_failures
        = cb.stats.consecutive_failures + 1
    ∧ (cb.call now outcome).1.stats.last_failure_time = some now
    ∧ (cb.call now outcome).1.stats.success_count = cb.stats.success_count := by
  rw [call_rejected_eq cb now hs hr outcome]
  simp [CircuitStats.record_failure]

/-- Witness for C9: the OPEN breaker of the C1 counterexample, rejecting at
time 1, goes from 1 recorded failure to 2 with the consecutive counter at 2. -/
theorem circuit_rejected_call_mutates_stats_witness :
    (((CircuitBreaker.init "svc" 1 60 2 0).failCalls 0 "boom" 1).call
        (α := String) 1 (Except.ok "v")).2 = CallResult.rejected
    ∧ (((CircuitBreaker.init "svc" 1 60 2 0).failCalls 0 "boom" 1).call
        (α := String) 1 (Except.ok "v")).1.stats.failure_count = 2
    ∧ (((CircuitBreaker.init "svc" 1 60 2 0).failCalls 0 "boom" 1).call
        (α := String) 1 (Except.ok "v")).1.stats.consecutive_failures = 2 := by
  have hr : ((CircuitBreaker.init "svc" 1 60 2 0).failCalls 0 "boom" 1).should_attempt_reset 1
      = false := by
    have h1 : ((CircuitBreaker.init "svc" 1 60 2 0).failCalls 0 "boom" 1).state_changed_at
        = 0 := rfl
    have h2 : ((CircuitBreaker.init "svc" 1 60 2 0).failCalls 0 "boom" 1).recovery_timeout
        = 60 := rfl
    rw [CircuitBreaker.should_attempt_reset, h1, h2]
    norm_num
  obtain ⟨w1, w2, w3, -, -⟩ := circuit_rejected_call_mutates_stats
    ((CircuitBreaker.init "svc" 1 60 2 0).failCalls 0 "boom" 1)
    1 (Except.ok "v") (by decide) hr
  refine ⟨w1, ?_, ?_⟩
  · rw [w2]; decide
  · rw [w3]; decide

/-! ### Helper lemmas: fallback chain -/

theorem levelLe_total : IsTotal (FallbackOption α)
    (fun a b => a.level.index ≤ b.level.index) :=
  ⟨fun a b => Nat.le_total a.level.index b.level.index⟩

theorem levelLe_trans : IsTrans (FallbackOption α)
    (fun a b => a.level.index ≤ b.level.index) :=
  ⟨fun _ _ _ hab hbc => Nat.le_trans hab hbc⟩

theorem ofOptions_sorted {α : Type} (nm : String) (adds : List (FallbackOption α)) :
    (FallbackChain.ofOptions nm adds).options.Sorted
      (fun a b => a.level.index ≤ b.level.index) := by
  rw [FallbackChain.ofOptions]
  induction adds generalizing nm with
  | nil => simp [List.Sorted]
  | cons a rest ih =>
    rw [List.foldl_cons]
    rcases rest with - | ⟨b, rest2⟩
    · rw [List.foldl_nil]
      exact @List.sorted_insertionSort _ _ _ levelLe_total levelLe_trans _
    · have step : ∀ (c : FallbackChain α) (o : FallbackOption α) (l : List (FallbackOption α)),
          (l.foldl FallbackChain.add_option (c.add_option o)).options.Sorted
            (fun a b => a.level.index ≤ b.level.index) := by
        intro c o l
        induction l generalizing c o with
        | nil =>
          exact @List.sorted_insertionSort _ _ _ levelLe_total levelLe_trans _
        | cons d l2 ih2 =>
          rw [List.foldl_cons]
          exact ih2 (c.add_option o) d
      exact step _ a (b :: rest2)

theorem executeFrom_cons_ok {α : Type} (opt : FallbackOption α)
    (rest : List (FallbackOption α)) (acc : List (String × String)) (v : α)
    (h : opt.handler = Except.ok v) :
    executeFrom (opt :: rest) acc = Except.ok v := by
  simp [executeFrom, h]

theorem executeFrom_cons_error {α : Type} (opt : FallbackOption α)
    (rest : List (FallbackOption α)) (acc : List (String × String)) (e : String)
    (h : opt.handler = Except.error e) :
    executeFrom (opt :: rest) acc = executeFrom rest (acc ++ [(opt.name, e)]) := by
  simp [executeFrom, h]

theorem executeFrom_first_ok {α : Type} (opt : FallbackOption α) (v : α)
    (post : List (FallbackOption α)) (hopt : opt.handler = Except.ok v) :
    ∀ (pre : List (FallbackOption α)) (acc : List (String × String)),
      (∀ p ∈ pre, ∃ err, p.handler = Except.error err) →
      executeFrom (pre ++ opt :: post) acc = Except.ok v := by
  intro pre
  induction pre with
  | nil =>
    intro acc _
    rw [List.nil_append]
    exact executeFrom_cons_ok opt post acc v hopt
  | cons p rest ih =>
    intro acc hfail
    obtain ⟨err, herr⟩ := hfail p (List.mem_cons_self p rest)
    rw [List.cons_append, executeFrom_cons_error p _ acc err herr]
    exact ih _ (fun q hq => hfail q (List.mem_cons_of_mem p hq))

theorem executeFrom_error_iff {α : Type} :
    ∀ (l : List (FallbackOption α)) (acc : List (String × String)),
      (∃ errs, executeFrom l acc = Except.error errs) ↔
        ∀ o ∈ l, ∃ err, o.handler = Except.error err := by
  intro l
  induction l with
  | nil => intro acc; simp [executeFrom]
  | cons o rest ih =>
    intro acc
    constructor
    · intro ⟨errs, herrs⟩ p hp
      rcases ho : o.handler with err | v
      · rw [executeFrom_cons_error o rest acc err ho] at herrs
        rcases List.mem_cons.mp hp with hpo | hprest
        · exact ⟨err, hpo ▸ ho⟩
        · exact ((ih _).mp ⟨errs, herrs⟩) p hprest
      · rw [executeFrom_cons_ok o rest acc v ho] at herrs
        exact absurd herrs (by simp)
    · intro hall
      obtain ⟨err, herr⟩ := hall o (List.mem_cons_self o rest)
      rw [executeFrom_cons_error o rest acc err herr]
      exact (ih _).mpr (fun p hp => hall p (List.mem_cons_of_mem o hp))

/-- Claim C4: a chain built through `add_option` keeps its options sorted in
ascending `FallbackLevel` order (PRIMARY before SECONDARY before TERTIARY
before EMERGENCY), `execute` returns the result of the first option whose
handler does not raise — regardless of any later options, which are never
consulted — and `execute` raises the aggregate error exactly when every
option's handler raises. -/
theorem fallback_chain_execute_spec {α : Type} (nm : String)
    (adds : List (FallbackOption α)) :
    (FallbackChain.ofOptions nm adds).options.Sorted
      (fun a b => a.level.index ≤ b.level.index)
  ∧ (∀ (pre post : List (FallbackOption α)) (opt : FallbackOption α) (v : α),
      (FallbackChain.ofOptions nm adds).options = pre ++ opt :: post →
      (∀ p ∈ pre, ∃ err, p.handler = Except.error err) →
      opt.handler = Except.ok v →
      (FallbackChain.ofOptions nm adds).execute = Except.ok v)
  ∧ ((∃ errs, (FallbackChain.ofOptions nm adds).execute = Except.error errs) ↔
      ∀ o ∈ (FallbackChain.ofOptions nm adds).options,
        ∃ err, o.handler = Except.error err) := by
  refine ⟨ofOptions_sorted nm adds, ?_, ?_⟩
  · intro pre post opt v hsplit hfail hok
    rw [FallbackChain.execute, hsplit]
    exact executeFrom_first_ok opt v post hok pre [] hfail
  · rw [FallbackChain.execute]
    exact executeFrom_error_iff (FallbackChain.ofOptions nm adds).options []

/-- Witness for C4: a chain given an EMERGENCY option first and a failing
PRIMARY option second sorts them PRIMARY-first, and `execute` skips the
failing PRIMARY handler and returns the EMERGENCY value. -/
theorem fallback_chain_execute_spec_witness :
    (FallbackChain.ofOptions (α := String) "ai"
      [{ name := "Static", level := .EMERGENCY, handler := Except.ok "static",
         description := "d" },
       { name := "OpenAI", level := .PRIMARY, handler := Except.error "down",
         description := "d" }]).execute = Except.ok "static" := by
  refine (fallback_chain_execute_spec "ai" _).2.1
    [{ name := "OpenAI", level := .PRIMARY, handler := Except.error "down",
       description := "d" }]
    []
    { name := "Static", level := .EMERGENCY, handler := Except.ok "static",
      description := "d" }
    "static" rfl ?_ rfl
  intro p hp
  rw [List.mem_singleton] at hp
  exact ⟨"down", by rw [hp]⟩

/-! ### Retry handler claims -/

/-- Claim C5 counterexample: the claim quantifies over every `RetryConfig`,
but for a config with `exponential_base = 1/2` (and jitter disabled, so the
value is deterministic) the delay strictly decreases from attempt 0 to
attempt 1, so the delay is not monotonically non-decreasing in the attempt
number. -/
theorem calculate_delay_monotone_counterexample :
    calculate_delay 1 { exponential_base := 1/2, jitter := false } 0
      < calculate_delay 0 { exponential_base := 1/2, jitter := false } 0 := by
  norm_num [calculate_delay, min_def, max_def]

/-- Claim C5 (amended): with jitter disabled, the delay is monotonically
non-decreasing in the attempt number provided `exponential_base ≥ 1` and
`initial_delay ≥ 0`, and it never exceeds `max_delay` provided
`max_delay ≥ 0.1` (the hard floor the code puts on every delay). -/
theorem calculate_delay_monotone_and_bounded (config : RetryConfig) (n : ℕ)
    (hj : config.jitter = false) :
    (1 ≤ config.exponential_base → 0 ≤ config.initial_delay →
      calculate_delay n config 0 ≤ calculate_delay (n + 1) config 0)
  ∧ (1/10 ≤ config.max_delay → calculate_delay n config 0 ≤ config.max_delay) := by
  constructor
  · intro hb hi
    simp only [calculate_delay, hj, Bool.false_eq_true, if_false]
    apply max_le_max (le_refl _)
    apply min_le_min _ (le_refl _)
    apply mul_le_mul_of_nonneg_left _ hi
    exact pow_le_pow_right₀ hb (Nat.le_succ n)
  · intro hm
    simp only [calculate_delay, hj, Bool.false_eq_true, if_false]
    exact max_le hm (min_le_right _ _)

/-- Witness for C5 (amended): the default config with jitter disabled. -/
theorem calculate_delay_monotone_and_bounded_witness :
    calculate_delay 0 { jitter := false } 0 ≤ calculate_delay 1 { jitter := false } 0
  ∧ calculate_delay 0 { jitter := false } 0 ≤ (60 : ℚ) := by
  have h := calculate_delay_monotone_and_bounded { jitter := false } 0 rfl
  exact ⟨h.1 (by norm_num) (by norm_num), h.2 (by norm_num)⟩

/-- Claim C6 counterexample: with jitter disabled, `initial_delay = 0.01`,
`exponential_base = 2` and `max_delay = 60`, the claim says attempt 0 yields
exactly `min(0.01 * 2^0, 60) = 0.01`, but the code returns
`max(0.1, 0.01) = 0.1`: the result is not the claimed minimum because of the
0.1-second floor. -/
theorem calculate_delay_exact_counterexample :
    calculate_delay 0 { initial_delay := 1/100, jitter := false } 0
      ≠ min (({ initial_delay := 1/100, jitter := false } : RetryConfig).initial_delay
            * ({ initial_delay := 1/100, jitter := false } : RetryConfig).exponential_base
              ^ (0 : ℕ))
          ({ initial_delay := 1/100, jitter := false } : RetryConfig).max_delay := by
  norm_num [calculate_delay, min_def, max_def]

/-- Claim C6 (amended): with jitter disabled, `calculate_delay` returns
`max(0.1, min(initial_delay * exponential_base ^ attempt, max_delay))` — the
claimed minimum, floored at 0.1 seconds; with jitter enabled it returns the
same expression with an offset of magnitude at most 25% of the minimum added
before the floor (the offset `j * d` for a uniform draw
`j ∈ [-1/4, 1/4]`). -/
theorem calculate_delay_closed_form (n : ℕ) (config : RetryConfig) (j : ℚ) :
    (config.jitter = false →
      calculate_delay n config j =
        max (1/10) (min (config.initial_delay * config.exponential_base ^ n)
          config.max_delay))
  ∧ (config.jitter = true → |j| ≤ 1/4 →
      ∃ off,
        |off| ≤ |min (config.initial_delay * config.exponential_base ^ n)
            config.max_delay| / 4
        ∧ calculate_delay n config j =
            max (1/10) (min (config.initial_delay * config.exponential_base ^ n)
              config.max_delay + off)) := by
  constructor
  · intro hj
    simp [calculate_delay, hj]
  · intro hj hb
    refine ⟨j * min (config.initial_delay * config.exponential_base ^ n)
      config.max_delay, ?_, ?_⟩
    · rw [abs_mul]
      calc |j| * |min (config.initial_delay * config.exponential_base ^ n)
              config.max_delay|
          ≤ (1/4) * |min (config.initial_delay * config.exponential_base ^ n)
              config.max_delay| :=
            mul_le_mul_of_nonneg_right hb (abs_nonneg _)
        _ = |min (config.initial_delay * config.exponential_base ^ n)
              config.max_delay| / 4 := by ring
    · simp [calculate_delay, hj]

/-- Witness for C6 (amended): attempt 2 of the default config, without and
with jitter (offset fraction 1/8). -/
theorem calculate_delay_closed_form_witness :
    calculate_delay 2 { jitter := false } 0
      = max ((1:ℚ)/10) (min ((1:ℚ) * (2:ℚ) ^ (2:ℕ)) 60)
  ∧ ∃ off, |off| ≤ |min ((1:ℚ) * (2:ℚ) ^ (2:ℕ)) (60:ℚ)| / 4
      ∧ calculate_delay 2 {} (1/8)
          = max ((1:ℚ)/10) (min ((1:ℚ) * (2:ℚ) ^ (2:ℕ)) 60 + off) :=
  ⟨(calculate_delay_closed_form 2 { jitter := false } 0).1 rfl,
   (calculate_delay_closed_form 2 {} (1/8)).2 rfl (by rw [abs_of_nonneg] <;> norm_num)⟩

/-- Claim C7: `should_retry` returns `False` for every exception whose
(lowercased) message contains none of the retryable substrings
(`retry_errors`) and none of the terminal substrings (`no_retry_errors`):
unclassified errors are never retried. -/
theorem should_retry_unclassified_false (s : String)
    (h1 : ∀ w ∈ retry_errors, hasSub w.data (lowerData s) = false)
    (h2 : ∀ w ∈ no_retry_errors, hasSub w.data (lowerData s) = false) :
    should_retry s = false := by
  have ha : retry_errors.any (fun w => hasSub w.data (lowerData s)) = false := by
    simp only [List.any_eq_false]
    intro w hw
    simp [h1 w hw]
  have hb : no_retry_errors.any (fun w => hasSub w.data (lowerData s)) = false := by
    simp only [List.any_eq_false]
    intro w hw
    simp [h2 w hw]
  simp [should_retry, ha, hb]

/-- Witness for C7: `"division by zero"` matches neither list and is not
retried. -/
theorem should_retry_unclassified_false_witness :
    should_retry "division by zero" = false := by
  refine should_retry_unclassified_false "division by zero" ?_ ?_ <;> decide

theorem retryGo_all_retryable {α : Type} (f : ℕ → Except String α)
    (es : ℕ → String) :
    ∀ (r a : ℕ), 1 ≤ r →
      (∀ k, k < r → f (a + k) = Except.error (es (a + k))
        ∧ should_retry (es (a + k)) = true) →
      ∀ last, retryGo f r a last
        = RetryOutcome.retryError (some (es (a + r - 1))) := by
  intro r
  induction r with
  | zero => intro a h1; omega
  | succ r ih =>
    intro a _ h last
    have h0 := h 0 (Nat.succ_pos r)
    rw [Nat.add_zero] at h0
    have hne : ¬ (should_retry (es a) = false) := by simp [h0.2]
    simp only [retryGo, h0.1]
    rw [if_neg hne]
    rcases Nat.eq_zero_or_pos r with hr0 | hrpos
    · subst hr0
      simp
    · rw [if_neg (Nat.pos_iff_ne_zero.mp hrpos)]
      have harg : ∀ k, k < r → f (a + 1 + k) = Except.error (es (a + 1 + k))
          ∧ should_retry (es (a + 1 + k)) = true := by
        intro k hk
        have h2 := h (k + 1) (by omega)
        have heq : a + (k + 1) = a + 1 + k := by omega
        rwa [heq] at h2
      have ih2 := ih (a + 1) hrpos harg (some (es a))
      have heq2 : a + 1 + r - 1 = a + (r + 1) - 1 := by omega
      rw [heq2] at ih2
      exact ih2

/-- Claim C8: when every one of the `max_attempts` invocations of the
wrapped function raises an exception classified as retryable, the wrapper
built by `retry_with_config` raises `RetryError` whose `last_error` is the
exception of the final attempt (attempt `max_attempts - 1`). -/
theorem retry_exhaustion_raises_retry_error {α : Type} (config : RetryConfig)
    (f : ℕ → Except String α) (es : ℕ → String)
    (h1 : 1 ≤ config.max_attempts)
    (h : ∀ i, i < config.max_attempts →
      f i = Except.error (es i) ∧ should_retry (es i) = true) :
    retry_with_config config f
      = RetryOutcome.retryError (some (es (config.max_attempts - 1))) := by
  rw [retry_with_config]
  have hg := retryGo_all_retryable f es config.max_attempts 0 h1
    (fun k hk => by simpa using h k hk) none
  simpa using hg

/-- Witness for C8: two attempts, both raising `"timeout"` (retryable),
end in `RetryError` with `last_error = "timeout"`. -/
theorem retry_exhaustion_witness :
    retry_with_config (α := Unit) { max_attempts := 2 }
      (fun _ => Except.error "timeout")
      = RetryOutcome.retryError (some "timeout") := by
  have h := retry_exhaustion_raises_retry_error (α := Unit) { max_attempts := 2 }
    (fun _ => Except.error "timeout") (fun _ => "timeout")
    (by decide) (fun i _ => ⟨rfl, by show should_retry "timeout" = true; decide⟩)
  simpa using h

/-! ### Provider router claim -/

/-- Claim C10: `route_request` never raises when no provider is available:
with no override provider and an empty available-provider list it returns
the provider name `"simulation"` together with metadata whose `strategy`
field is `"fallback"` (and whose `reason` is `"No available providers"`). -/
theorem route_request_no_providers_simulation
    (select : StructuredRequest → List String → String)
    (strategy_name sel_reason : String) (request : StructuredRequest)
    (openai_key gemini_key : Bool) (cb_openai cb_gemini : Option CircuitState)
    (now : ℚ)
    (h : get_available_providers openai_key gemini_key cb_openai cb_gemini = []) :
    route_request select strategy_name sel_reason request none
        openai_key gemini_key cb_openai cb_gemini now
      = ("simulation", { strategy := "fallback"
                         reason := some "No available providers"
                         timestamp := now }) := by
  simp [route_request, h]

/-- Witness for C10: no API keys configured, so no provider is available,
and the router falls back to `"simulation"`. -/
theorem route_request_no_providers_simulation_witness :
    route_request (fun _ _ => "openai") "HybridRoutingStrategy" "r"
        { content := "zdravo", request_type := RequestType.CHAT } none
        false false none none 0
      = ("simulation", { strategy := "fallback"
                         reason := some "No available providers"
                         timestamp := 0 }) :=
  route_request_no_providers_simulation (fun _ _ => "openai")
    "HybridRoutingStrategy" "r"
    { content := "zdravo", request_type := RequestType.CHAT }
    false false none none 0 rfl

end Vasa
